import Mathlib

/-!
Shallow embedding of the resilient WebSocket session layer of the
VoiceAgentPlanner repository.

The authoritative code is the class `WebSocketClient` (file `part_002`,
referred to below by its line numbers) together with the class
`PipecatWebSocketClient` (file `voice-assistant/renderer/websocket-client.js`).
Stateful JavaScript methods become pure Lean functions that take the relevant
fields of the object as a `ClientState` and return the updated state together
with their observable outputs: frames handed to the transport, connection
statuses emitted through `updateConnectionStatus`, and timers scheduled via
`setTimeout`.  Conditions decided by the JavaScript runtime rather than by the
client itself — whether `ws.readyState === WebSocket.OPEN`, whether `ws.send`
or `new WebSocket` throws — are passed in as boolean oracles.
-/

set_option autoImplicit false

namespace VoiceWS

/-- Payload shapes of the outbound envelopes built by the client
(`ping` carries no data; `text_input` carries text and a timestamp;
`audio_data` carries base64 audio, a format tag and a timestamp;
`start_listening` and `stop_listening` carry only a timestamp). -/
inductive MsgData where
  | empty : MsgData
  | textPayload (text : String) (timestamp : Nat) : MsgData
  | audioPayload (audio : String) (format : String) (timestamp : Nat) : MsgData
  | stampPayload (timestamp : Nat) : MsgData
  deriving Repr, DecidableEq

/-- The wire message envelope: a type tag and a structured payload. -/
structure Envelope where
  type : String
  data : MsgData
  deriving Repr, DecidableEq

/-- The mutable fields of `WebSocketClient` (constructor, lines 7 to 27) that
the session logic reads and writes.  `wsPresent` models `this.ws !== null`;
`heartbeatIntervalSet` and `heartbeatTimeoutSet` model whether the
corresponding timer handles are non-null. -/
structure ClientState where
  wsPresent : Bool
  isConnected : Bool
  reconnectAttempts : Nat
  maxReconnectAttempts : Nat
  reconnectDelay : Nat
  maxReconnectDelay : Nat
  heartbeatIntervalSet : Bool
  heartbeatTimeoutSet : Bool
  messageQueue : List Envelope
  deriving Repr, DecidableEq

/-- The constructor state (lines 7 to 27): no socket, disconnected, zero
attempts, delays 1000 and 30000, maximum of 5 attempts, empty queue. -/
def initialState : ClientState :=
  { wsPresent := false
    isConnected := false
    reconnectAttempts := 0
    maxReconnectAttempts := 5
    reconnectDelay := 1000
    maxReconnectDelay := 30000
    heartbeatIntervalSet := false
    heartbeatTimeoutSet := false
    messageQueue := [] }

/-- `WebSocketClient.sendMessage` (lines 227 to 242).  `wsOpen` is whether
`this.ws.readyState === WebSocket.OPEN`; `sendOk` is whether `this.ws.send`
returns normally (`false` means it threw and the catch branch ran).  Result:
the returned boolean, the state afterwards, and the frames handed to the
transport by this call (zero or one).  Note that the catch branch returns
`false` without touching the queue, while the not-connected branch pushes the
envelope onto the tail of the queue. -/
def sendMessage (st : ClientState) (wsOpen sendOk : Bool) (m : Envelope) :
    Bool × ClientState × List Envelope :=
  if st.isConnected && wsOpen then
    if sendOk then (true, st, [m]) else (false, st, [])
  else
    (false, { st with messageQueue := st.messageQueue ++ [m] }, [])

/-- `WebSocketClient.flushMessageQueue` (lines 244 to 249): a while loop that
runs as long as the queue is non-empty, each iteration shifting the head off
the queue and passing it to `sendMessage`.  `wsOpen i` and `sendOk i` give the
transport condition at loop iteration `i`; `fuel` bounds the number of
iterations modelled, and a result of `none` means the loop has not finished
within `fuel` iterations.  On success the result carries the final state and
the concatenated list of frames handed to the transport. -/
def flushFuel (wsOpen sendOk : Nat → Bool) :
    Nat → Nat → ClientState → Option (ClientState × List Envelope)
  | 0, _, st =>
    match st.messageQueue with
    | [] => some (st, [])
    | _ :: _ => none
  | Nat.succ fuel, i, st =>
    match st.messageQueue with
    | [] => some (st, [])
    | m :: rest =>
      let r := sendMessage { st with messageQueue := rest } (wsOpen i) (sendOk i) m
      match flushFuel wsOpen sendOk fuel (i + 1) r.2.1 with
      | some (st2, out) => some (st2, r.2.2 ++ out)
      | none => none

/-- The flush loop finishes within some number of iterations. -/
def flushTerminates (wsOpen sendOk : Nat → Bool) (st : ClientState) : Prop :=
  ∃ fuel, (flushFuel wsOpen sendOk fuel 0 st).isSome

/-- `WebSocketClient.stopHeartbeat` (lines 197 to 207): clear both the
interval and the pong-timeout handles. -/
def stopHeartbeat (st : ClientState) : ClientState :=
  { st with heartbeatIntervalSet := false, heartbeatTimeoutSet := false }

/-- `WebSocketClient.startHeartbeat` (lines 183 to 195) stores the interval
handle; the body of the interval is modelled separately by `heartbeatTick`. -/
def startHeartbeat (st : ClientState) : ClientState :=
  { st with heartbeatIntervalSet := true }

/-- The envelope the heartbeat sends (line 186). -/
def pingEnvelope : Envelope := { type := "ping", data := MsgData.empty }

/-- One firing of the 30 second heartbeat interval (lines 184 to 194): if
`isConnected`, send a ping envelope via `sendMessage` and arm the 5 second
pong timeout.  Result: the state afterwards and the frames handed to the
transport. -/
def heartbeatTick (st : ClientState) (wsOpen sendOk : Bool) :
    ClientState × List Envelope :=
  if st.isConnected then
    let r := sendMessage st wsOpen sendOk pingEnvelope
    ({ r.2.1 with heartbeatTimeoutSet := true }, r.2.2)
  else
    (st, [])

/-- `WebSocketClient.handlePong` (lines 175 to 181): clear the pong timeout
if one is armed; nothing else changes. -/
def handlePong (st : ClientState) : ClientState :=
  if st.heartbeatTimeoutSet then { st with heartbeatTimeoutSet := false } else st

/-- `WebSocketClient.scheduleReconnect` (lines 209 to 225).  Result: the state
afterwards, the delay of the `setTimeout` scheduled by this call when one was
scheduled, and the connection statuses emitted.  When the attempt counter has
reached the maximum the method emits the status "failed" and returns without
scheduling; otherwise it increments the counter, schedules a retry after the
current delay, and then doubles the delay capped at the maximum. -/
def scheduleReconnect (st : ClientState) : ClientState × Option Nat × List String :=
  if st.maxReconnectAttempts ≤ st.reconnectAttempts then
    (st, none, ["failed"])
  else
    let st1 := { st with reconnectAttempts := st.reconnectAttempts + 1 }
    let d := st1.reconnectDelay
    let st2 := { st1 with
      reconnectDelay := min (st1.reconnectDelay * 2) st1.maxReconnectDelay }
    (st2, some d, [])

/-- `n` successive `scheduleReconnect` calls, one per consecutive failed
connection attempt (each failed attempt fires `handleClose` with a non-clean
code, which calls `scheduleReconnect`). -/
def iterateSchedule : Nat → ClientState → ClientState
  | 0, st => st
  | Nat.succ n, st => iterateSchedule n (scheduleReconnect st).1

/-- `WebSocketClient.handleClose` (lines 115 to 125).  `code` is the close
event code; 1000 is the clean close.  The method clears `isConnected`, stops
the heartbeat, emits the status "disconnected", and calls `scheduleReconnect`
unless the close was clean.  Result: the state afterwards, the reconnect delay
scheduled if any, and the statuses emitted in order. -/
def handleClose (st : ClientState) (code : Nat) :
    ClientState × Option Nat × List String :=
  let st1 := stopHeartbeat { st with isConnected := false }
  if code ≠ 1000 then
    let r := scheduleReconnect st1
    (r.1, r.2.1, "disconnected" :: r.2.2)
  else
    (st1, none, ["disconnected"])

/-- The 5 second pong-timeout callback (lines 189 to 192) calls
`this.ws.close()` with no arguments; the resulting close event carries a
no-status or abnormal code (1005 or 1006 in browsers), never the clean code
1000, and is processed by `handleClose`. -/
def pongTimeoutFire (st : ClientState) (closeCode : Nat) :
    ClientState × Option Nat × List String :=
  handleClose st closeCode

/-- `WebSocketClient.handleOpen` (lines 53 to 75): set `isConnected`, reset
the reconnect policy to zero attempts and a 1000 ms delay, emit the status
"connected", start the heartbeat, and flush the queue.  The flush is modelled
with `flushFuel`; `none` again means the flush loop did not finish. -/
def handleOpen (wsOpen sendOk : Nat → Bool) (fuel : Nat) (st : ClientState) :
    Option (ClientState × List String × List Envelope) :=
  let st1 := startHeartbeat
    { st with isConnected := true, reconnectAttempts := 0, reconnectDelay := 1000 }
  match flushFuel wsOpen sendOk fuel 0 st1 with
  | some (st2, out) => some (st2, ["connected"], out)
  | none => none

/-- `WebSocketClient.connect` (lines 34 to 51).  `ctorOk` is whether
`new WebSocket(url)` returns normally.  There is no guard on the current
state: the method always emits "connecting" and, when the constructor
succeeds, stores a brand-new socket and assigns all four handlers.  Result:
the state afterwards, whether a new transport with fresh handlers was
created, the reconnect delay scheduled by the catch path if any, and the
statuses emitted. -/
def connect (st : ClientState) (ctorOk : Bool) :
    ClientState × Bool × Option Nat × List String :=
  if ctorOk then
    ({ st with wsPresent := true }, true, none, ["connecting"])
  else
    let r := scheduleReconnect st
    (r.1, false, r.2.1, "connecting" :: "error" :: r.2.2)

/-- `WebSocketClient.disconnect` (lines 339 to 347).  When a socket is
present: stop the heartbeat, close the socket with code 1000 and reason
"Client disconnect", and null the socket; in every case clear `isConnected`
and emit "disconnected".  Result: the state afterwards, the close call issued
as a code and reason pair when the socket was present, and the statuses
emitted. -/
def disconnect (st : ClientState) :
    ClientState × Option (Nat × String) × List String :=
  if st.wsPresent then
    ({ stopHeartbeat st with wsPresent := false, isConnected := false },
      some (1000, "Client disconnect"), ["disconnected"])
  else
    ({ st with isConnected := false }, none, ["disconnected"])

/-- The runtime view of the one-shot reconnect timer.  `scheduleReconnect`
(line 219) calls `setTimeout` without keeping the returned handle, so no field
of the client stores it; we track whether such a timer is pending alongside
the client state. -/
structure TimerWorld where
  client : ClientState
  reconnectTimerPending : Bool
  deriving Repr, DecidableEq

/-- `scheduleReconnect` at the runtime level: when a retry is scheduled the
runtime now holds a pending reconnect timer. -/
def scheduleReconnectW (w : TimerWorld) : TimerWorld × Option Nat × List String :=
  let r := scheduleReconnect w.client
  (⟨r.1, w.reconnectTimerPending || r.2.1.isSome⟩, r.2.1, r.2.2)

/-- `disconnect` at the runtime level: the method clears only the two
heartbeat handles it kept (lines 339 to 347); it retained no handle for the
reconnect timer, so a pending reconnect timer survives the call. -/
def disconnectW (w : TimerWorld) :
    TimerWorld × Option (Nat × String) × List String :=
  let r := disconnect w.client
  (⟨r.1, w.reconnectTimerPending⟩, r.2.1, r.2.2)

/-- `WebSocketClient.sendAudioData` (lines 251 to 272).  When not
`isConnected` the method warns and returns `false` without touching the
queue; otherwise it returns `true` and the FileReader onload callback builds
the `audio_data` envelope (base64 audio, format "webm", a `Date.now` stamp)
and hands it to `sendMessage`.  `b64` is the base64 string the reader
produced and `now` the timestamp. -/
def sendAudioData (st : ClientState) (wsOpen sendOk : Bool) (b64 : String)
    (now : Nat) : Bool × ClientState × List Envelope :=
  if !st.isConnected then
    (false, st, [])
  else
    let r := sendMessage st wsOpen sendOk
      { type := "audio_data", data := MsgData.audioPayload b64 "webm" now }
    (true, r.2.1, r.2.2)

/-- `WebSocketClient.sendTextMessage` (lines 274 to 282): build a
`text_input` envelope and return `sendMessage` of it. -/
def sendTextMessage (st : ClientState) (wsOpen sendOk : Bool) (text : String)
    (now : Nat) : Bool × ClientState × List Envelope :=
  sendMessage st wsOpen sendOk
    { type := "text_input", data := MsgData.textPayload text now }

/-- `WebSocketClient.startListening` (lines 284 to 291). -/
def startListening (st : ClientState) (wsOpen sendOk : Bool) (now : Nat) :
    Bool × ClientState × List Envelope :=
  sendMessage st wsOpen sendOk
    { type := "start_listening", data := MsgData.stampPayload now }

/-- `WebSocketClient.stopListening` (lines 293 to 300). -/
def stopListening (st : ClientState) (wsOpen sendOk : Bool) (now : Nat) :
    Bool × ClientState × List Envelope :=
  sendMessage st wsOpen sendOk
    { type := "stop_listening", data := MsgData.stampPayload now }

/-- The fields of `PipecatWebSocketClient` relevant to its connect guard.
`wsReadyState` uses the WebSocket codes: 0 CONNECTING, 1 OPEN, 2 CLOSING,
3 CLOSED. -/
structure PipecatState where
  wsPresent : Bool
  wsReadyState : Nat
  isConnected : Bool
  reconnectAttempts : Nat
  reconnectDelay : Nat
  deriving Repr, DecidableEq

/-- `PipecatWebSocketClient.connect` (websocket-client.js lines 17 to 62).
Guarded only by `this.ws && this.ws.readyState === WebSocket.OPEN`: when the
guard holds the method logs and returns, otherwise it constructs a new
WebSocket (readyState CONNECTING) and assigns all four handlers.  Result: the
state afterwards and whether a new transport was created with its handlers
replaced. -/
def pipecatConnect (st : PipecatState) : PipecatState × Bool :=
  if st.wsPresent && st.wsReadyState == 1 then
    (st, false)
  else
    ({ st with wsPresent := true, wsReadyState := 0 }, true)

/-! ### Helper lemmas -/

/-- Doubling a capped value and re-capping is the same as capping the doubled
uncapped value; stated for an arbitrary positive factor. -/
theorem min_mul_cap (a M b : Nat) (hb : 1 ≤ b) :
    min (min a M * b) M = min (a * b) M := by
  rcases Nat.le_total a M with h | h
  · rw [Nat.min_eq_left h]
  · have hMb : M ≤ M * b := Nat.le_mul_of_pos_right M hb
    rw [Nat.min_eq_right h, Nat.min_eq_right hMb,
      Nat.min_eq_right (Nat.le_trans hMb (Nat.mul_le_mul_right b h))]

/-- Fields of the state after a non-exhausted `scheduleReconnect` call. -/
theorem scheduleReconnect_fields (st : ClientState)
    (hguard : ¬ st.maxReconnectAttempts ≤ st.reconnectAttempts) :
    (scheduleReconnect st).1.reconnectAttempts = st.reconnectAttempts + 1 ∧
    (scheduleReconnect st).1.reconnectDelay =
      min (st.reconnectDelay * 2) st.maxReconnectDelay ∧
    (scheduleReconnect st).1.maxReconnectAttempts = st.maxReconnectAttempts ∧
    (scheduleReconnect st).1.maxReconnectDelay = st.maxReconnectDelay := by
  simp [scheduleReconnect, hguard]

/-- Invariant of a run of consecutive failed attempts: starting below the
attempt cap with a delay below the delay cap, after `n` calls the attempt
counter has grown by `n` and the delay is the doubled base capped at the
maximum; the two configuration caps are untouched. -/
theorem iterateSchedule_spec (n : Nat) (st : ClientState)
    (hn : st.reconnectAttempts + n ≤ st.maxReconnectAttempts)
    (hd : st.reconnectDelay ≤ st.maxReconnectDelay) :
    (iterateSchedule n st).reconnectAttempts = st.reconnectAttempts + n ∧
    (iterateSchedule n st).reconnectDelay =
      min (st.reconnectDelay * 2 ^ n) st.maxReconnectDelay ∧
    (iterateSchedule n st).maxReconnectAttempts = st.maxReconnectAttempts ∧
    (iterateSchedule n st).maxReconnectDelay = st.maxReconnectDelay := by
  induction n generalizing st with
  | zero =>
    simp [iterateSchedule, Nat.min_eq_left hd]
  | succ n ih =>
    have hguard : ¬ st.maxReconnectAttempts ≤ st.reconnectAttempts := by omega
    obtain ⟨f1, f2, f3, f4⟩ := scheduleReconnect_fields st hguard
    have hiter : iterateSchedule (n + 1) st
        = iterateSchedule n (scheduleReconnect st).1 := rfl
    have h1 := ih (scheduleReconnect st).1
      (by rw [f1, f3]; omega)
      (by rw [f2, f4]; exact Nat.min_le_right _ _)
    rw [hiter]
    refine ⟨?_, ?_, ?_, ?_⟩
    · rw [h1.1, f1]; omega
    · rw [h1.2.1, f2, f4, min_mul_cap _ _ _ (Nat.one_le_pow _ _ (by omega))]
      have he : st.reconnectDelay * 2 * 2 ^ n = st.reconnectDelay * 2 ^ (n + 1) := by
        ring
      rw [he]
    · rw [h1.2.2.1, f3]
    · rw [h1.2.2.2, f4]

/-- Once the attempt counter has reached the cap, `scheduleReconnect` emits
the status "failed", schedules nothing, and leaves the state unchanged. -/
theorem scheduleReconnect_exhausted (st : ClientState)
    (h : st.maxReconnectAttempts ≤ st.reconnectAttempts) :
    scheduleReconnect st = (st, none, ["failed"]) := by
  simp [scheduleReconnect, h]

/-- An exhausted state is a fixed point of the retry loop. -/
theorem iterateSchedule_exhausted (k : Nat) (st : ClientState)
    (h : st.maxReconnectAttempts ≤ st.reconnectAttempts) :
    iterateSchedule k st = st := by
  induction k with
  | zero => rfl
  | succ k ih =>
    have : iterateSchedule (k + 1) st = iterateSchedule k (scheduleReconnect st).1 := rfl
    rw [this, scheduleReconnect_exhausted st h, ih]

/-- Splitting a run of `scheduleReconnect` calls. -/
theorem iterateSchedule_add (a b : Nat) (st : ClientState) :
    iterateSchedule (a + b) st = iterateSchedule b (iterateSchedule a st) := by
  induction a generalizing st with
  | zero => simp [iterateSchedule]
  | succ a ih =>
    have h1 : a + 1 + b = (a + b) + 1 := by omega
    rw [h1]
    have h2 : iterateSchedule ((a + b) + 1) st
        = iterateSchedule (a + b) (scheduleReconnect st).1 := rfl
    rw [h2, ih]
    rfl

/-- `sendMessage` changes no field other than the message queue. -/
theorem sendMessage_preserves (st : ClientState) (wsOpen sendOk : Bool)
    (m : Envelope) :
    (sendMessage st wsOpen sendOk m).2.1.reconnectAttempts = st.reconnectAttempts ∧
    (sendMessage st wsOpen sendOk m).2.1.reconnectDelay = st.reconnectDelay ∧
    (sendMessage st wsOpen sendOk m).2.1.isConnected = st.isConnected ∧
    (sendMessage st wsOpen sendOk m).2.1.heartbeatIntervalSet = st.heartbeatIntervalSet := by
  unfold sendMessage
  split <;> [skip; simp]
  split <;> simp

/-- The flush loop changes no field other than the message queue. -/
theorem flushFuel_preserves (wsOpen sendOk : Nat → Bool) :
    ∀ (fuel i : Nat) (st st2 : ClientState) (out : List Envelope),
    flushFuel wsOpen sendOk fuel i st = some (st2, out) →
    st2.reconnectAttempts = st.reconnectAttempts ∧
    st2.reconnectDelay = st.reconnectDelay ∧
    st2.isConnected = st.isConnected ∧
    st2.heartbeatIntervalSet = st.heartbeatIntervalSet := by
  intro fuel
  induction fuel with
  | zero =>
    intro i st st2 out h
    unfold flushFuel at h
    cases hq : st.messageQueue with
    | nil => rw [hq] at h; simp at h; simp [h.1]
    | cons m rest => rw [hq] at h; simp at h
  | succ fuel ih =>
    intro i st st2 out h
    unfold flushFuel at h
    cases hq : st.messageQueue with
    | nil => rw [hq] at h; simp at h; simp [h.1]
    | cons m rest =>
      rw [hq] at h
      simp only at h
      cases hrec : flushFuel wsOpen sendOk fuel (i + 1)
          (sendMessage { st with messageQueue := rest } (wsOpen i) (sendOk i) m).2.1 with
      | none => rw [hrec] at h; simp at h
      | some p =>
        rw [hrec] at h
        simp only [Option.some.injEq] at h
        have hmid := sendMessage_preserves { st with messageQueue := rest }
          (wsOpen i) (sendOk i) m
        have htail := ih (i + 1) _ p.1 p.2 hrec
        have hst2 : st2 = p.1 := by
          have := congrArg Prod.fst h
          simpa using this.symm
        subst hst2
        simp only at hmid
        exact ⟨htail.1.trans hmid.1, htail.2.1.trans hmid.2.1,
          htail.2.2.1.trans hmid.2.2.1, htail.2.2.2.trans hmid.2.2.2⟩

/-- While the transport condition reports not-OPEN, every flush iteration
shifts the head and pushes it back onto the tail, so the queue never empties
and no amount of fuel finishes the loop. -/
theorem flushFuel_stuck (sendOk : Nat → Bool) :
    ∀ (fuel i : Nat) (st : ClientState), st.messageQueue ≠ [] →
    flushFuel (fun _ => false) sendOk fuel i st = none := by
  intro fuel
  induction fuel with
  | zero =>
    intro i st hne
    unfold flushFuel
    cases hq : st.messageQueue with
    | nil => exact absurd hq hne
    | cons m rest => simp
  | succ fuel ih =>
    intro i st hne
    unfold flushFuel
    cases hq : st.messageQueue with
    | nil => exact absurd hq hne
    | cons m rest =>
      simp only
      have hsend : (sendMessage { st with messageQueue := rest } false (sendOk i) m).2.1
          = { st with messageQueue := rest ++ [m] } := by
        simp [sendMessage]
      rw [hsend, ih (i + 1) _ (by simp)]

/-! ### Concrete fixtures -/

/-- A `text_input` envelope as built by `sendTextMessage "hello"`. -/
def textEnvelopeA : Envelope :=
  { type := "text_input", data := MsgData.textPayload "hello" 1 }

/-- A second `text_input` envelope sent after `textEnvelopeA`. -/
def textEnvelopeB : Envelope :=
  { type := "text_input", data := MsgData.textPayload "again" 2 }

/-- A connected client with an empty queue. -/
def connectedState : ClientState :=
  { initialState with wsPresent := true, isConnected := true }

/-- A connected client about to flush two queued text envelopes. -/
def flushDropState : ClientState :=
  { connectedState with messageQueue := [textEnvelopeA, textEnvelopeB] }

/-- A client with one queued envelope whose flush runs while the transport
reports not-OPEN at every iteration. -/
def stuckQueueState : ClientState :=
  { connectedState with messageQueue := [pingEnvelope] }

/-- A Pipecat client whose socket is still CONNECTING. -/
def pipecatConnecting : PipecatState :=
  { wsPresent := true, wsReadyState := 0, isConnected := false,
    reconnectAttempts := 0, reconnectDelay := 1000 }

/-- A Pipecat client whose socket is OPEN. -/
def pipecatOpenState : PipecatState :=
  { wsPresent := true, wsReadyState := 1, isConnected := true,
    reconnectAttempts := 0, reconnectDelay := 1000 }

/-- A connected client while the runtime holds a pending reconnect timer. -/
def pendingWorld : TimerWorld :=
  { client := connectedState, reconnectTimerPending := true }

/-! ### Claims -/

/-- C1: the claim says that when a transmission fails during a flush, the
failed envelope and all envelopes behind it remain queued in their original
order.  Evaluating the code at a concrete failing input refutes this: a
connected client flushes the queue `[textEnvelopeA, textEnvelopeB]`,
`ws.send` throws on the first iteration and succeeds afterwards; the loop
removes `textEnvelopeA` from the queue, the catch branch of `sendMessage`
discards it without re-queueing, and the loop goes on to transmit
`textEnvelopeB`.  The flush ends with an empty queue and the transport
received only `[textEnvelopeB]`: the failed envelope was silently dropped
instead of remaining at the head of the queue. -/
theorem flush_silent_drop_eval :
    flushFuel (fun _ => true) (fun i => i != 0) 2 0 flushDropState =
      some (connectedState, [textEnvelopeB]) := by
  rfl

/-- C2: the claim says a failed transmission attempt enqueues the envelope.
Evaluating `sendMessage` on a connected client whose `ws.send` throws
(`sendOk = false`) refutes this: the call returns `false` and the resulting
state is unchanged — in particular the message queue is still empty, so the
envelope was discarded, not enqueued. -/
theorem sendMessage_drop_on_failure_eval :
    sendMessage connectedState true false textEnvelopeA
      = (false, connectedState, []) ∧
    connectedState.messageQueue = [] := by
  exact ⟨rfl, rfl⟩

/-- C3: reconnect backoff.  In a run of consecutive failed attempts starting
from a reset policy (zero attempts, 1000 ms delay, 30000 ms cap), the delay
scheduled before retry number `n` equals `min (1000 * 2 ^ n) 30000`; and
whenever `handleOpen` completes on a successful connection, the resulting
state has the attempt counter reset to 0 and the delay reset to 1000 ms. -/
theorem reconnect_backoff_and_reset (n : Nat) (st stc st2 : ClientState)
    (wsOpen sendOk : Nat → Bool) (fuel : Nat) (log : List String)
    (out : List Envelope)
    (h0 : st.reconnectAttempts = 0) (hd : st.reconnectDelay = 1000)
    (hM : st.maxReconnectDelay = 30000) (hn : n < st.maxReconnectAttempts)
    (hopen : handleOpen wsOpen sendOk fuel stc = some (st2, log, out)) :
    (scheduleReconnect (iterateSchedule n st)).2.1
      = some (min (1000 * 2 ^ n) 30000) ∧
    st2.reconnectAttempts = 0 ∧ st2.reconnectDelay = 1000 := by
  obtain ⟨i1, i2, i3, i4⟩ := iterateSchedule_spec n st (by omega) (by omega)
  have hguard : ¬ (iterateSchedule n st).maxReconnectAttempts
      ≤ (iterateSchedule n st).reconnectAttempts := by
    rw [i1, i3]; omega
  have hsched : (scheduleReconnect (iterateSchedule n st)).2.1
      = some ((iterateSchedule n st).reconnectDelay) := by
    simp [scheduleReconnect, hguard]
  refine ⟨by rw [hsched, i2, hd, hM], ?_⟩
  simp only [handleOpen] at hopen
  cases hf : flushFuel wsOpen sendOk fuel 0 (startHeartbeat
      { stc with isConnected := true, reconnectAttempts := 0,
                 reconnectDelay := 1000 }) with
  | none => rw [hf] at hopen; simp at hopen
  | some p =>
    rw [hf] at hopen
    simp only [Option.some.injEq, Prod.mk.injEq] at hopen
    have hp := flushFuel_preserves wsOpen sendOk fuel 0 _ p.1 p.2
      (by rw [hf])
    rw [← hopen.1]
    refine ⟨hp.1.trans ?_, hp.2.1.trans ?_⟩
    · simp [startHeartbeat]
    · simp [startHeartbeat]

/-- Witness for C3 at `n = 2` and a trivial successful open of the initial
state with an empty queue. -/
theorem reconnect_backoff_and_reset_witness :
    (scheduleReconnect (iterateSchedule 2 initialState)).2.1
      = some (min (1000 * 2 ^ 2) 30000) ∧
    (startHeartbeat { initialState with isConnected := true }).reconnectAttempts
      = 0 ∧
    (startHeartbeat { initialState with isConnected := true }).reconnectDelay
      = 1000 :=
  reconnect_backoff_and_reset 2 initialState initialState
    (startHeartbeat { initialState with isConnected := true })
    (fun _ => true) (fun _ => true) 0 ["connected"] []
    rfl rfl rfl (by decide) (by decide)

/-- C4: attempt exhaustion.  Starting from a reset attempt counter, once
`maxReconnectAttempts` consecutive failed attempts have each called
`scheduleReconnect`, the next call — and every later one, for any `k` further
failures — schedules no reconnect timer, surfaces the status "failed" through
the connection-change callback, and leaves the state unchanged, so no retry
ever fires until the caller intervenes. -/
theorem reconnect_exhaustion (st : ClientState) (k : Nat)
    (h0 : st.reconnectAttempts = 0)
    (hd : st.reconnectDelay ≤ st.maxReconnectDelay) :
    (scheduleReconnect (iterateSchedule (st.maxReconnectAttempts + k) st)).2.1
      = none ∧
    (scheduleReconnect (iterateSchedule (st.maxReconnectAttempts + k) st)).2.2
      = ["failed"] ∧
    (scheduleReconnect (iterateSchedule (st.maxReconnectAttempts + k) st)).1
      = iterateSchedule (st.maxReconnectAttempts + k) st := by
  obtain ⟨i1, i2, i3, i4⟩ :=
    iterateSchedule_spec st.maxReconnectAttempts st (by omega) hd
  have hexh : (iterateSchedule st.maxReconnectAttempts st).maxReconnectAttempts
      ≤ (iterateSchedule st.maxReconnectAttempts st).reconnectAttempts := by
    rw [i1, i3]; omega
  have hsplit := iterateSchedule_add st.maxReconnectAttempts k st
  have hfix := iterateSchedule_exhausted k _ hexh
  rw [hsplit, hfix, scheduleReconnect_exhausted _ hexh]
  exact ⟨rfl, rfl, rfl⟩

/-- Witness for C4 on the constructor state (5 maximum attempts) with one
extra failure beyond exhaustion. -/
theorem reconnect_exhaustion_witness :
    (scheduleReconnect
        (iterateSchedule (initialState.maxReconnectAttempts + 1) initialState)).2.1
      = none ∧
    (scheduleReconnect
        (iterateSchedule (initialState.maxReconnectAttempts + 1) initialState)).2.2
      = ["failed"] ∧
    (scheduleReconnect
        (iterateSchedule (initialState.maxReconnectAttempts + 1) initialState)).1
      = iterateSchedule (initialState.maxReconnectAttempts + 1) initialState :=
  reconnect_exhaustion initialState 1 rfl (by decide)

/-- C5: clean close suppresses reconnect.  For every state, a close event
with the clean code 1000 schedules no reconnect timer, emits exactly the
status "disconnected" (never a reconnecting status), clears `isConnected`,
and stops both heartbeat timers. -/
theorem clean_close_no_reconnect (st : ClientState) :
    (handleClose st 1000).2.1 = none ∧
    (handleClose st 1000).2.2 = ["disconnected"] ∧
    (handleClose st 1000).1.isConnected = false ∧
    (handleClose st 1000).1.heartbeatIntervalSet = false ∧
    (handleClose st 1000).1.heartbeatTimeoutSet = false := by
  simp [handleClose, stopHeartbeat]

/-- C6: heartbeat liveness.  While connected, a heartbeat tick hands exactly
one ping envelope to the transport and arms the pong timeout; a pong arriving
before the timeout disarms it and changes nothing else; and when the timeout
fires with no pong, the forced close (whose close event never carries the
clean code 1000) runs the close handling, which drops the connection and
schedules a reconnect after the current delay whenever attempts remain. -/
theorem heartbeat_liveness (st stc : ClientState) (closeCode : Nat)
    (hconn : st.isConnected = true)
    (hcode : closeCode ≠ 1000)
    (hatt : stc.reconnectAttempts < stc.maxReconnectAttempts) :
    heartbeatTick st true true
      = ({ st with heartbeatTimeoutSet := true }, [pingEnvelope]) ∧
    handlePong { st with heartbeatTimeoutSet := true }
      = { st with heartbeatTimeoutSet := false } ∧
    (pongTimeoutFire stc closeCode).2.1 = some stc.reconnectDelay ∧
    (pongTimeoutFire stc closeCode).1.isConnected = false := by
  have hguard : ¬ stc.maxReconnectAttempts ≤ stc.reconnectAttempts := by omega
  refine ⟨?_, ?_, ?_, ?_⟩
  · simp [heartbeatTick, sendMessage, hconn]
  · simp [handlePong]
  · simp [pongTimeoutFire, handleClose, hcode, stopHeartbeat,
      scheduleReconnect, hguard]
  · simp [pongTimeoutFire, handleClose, hcode, stopHeartbeat,
      scheduleReconnect, hguard]

/-- Witness for C6: a connected client, a forced close with code 1006, and a
reset reconnect policy. -/
theorem heartbeat_liveness_witness :
    heartbeatTick connectedState true true
      = ({ connectedState with heartbeatTimeoutSet := true }, [pingEnvelope]) ∧
    handlePong { connectedState with heartbeatTimeoutSet := true }
      = { connectedState with heartbeatTimeoutSet := false } ∧
    (pongTimeoutFire initialState 1006).2.1 = some initialState.reconnectDelay ∧
    (pongTimeoutFire initialState 1006).1.isConnected = false :=
  heartbeat_liveness connectedState initialState 1006 rfl (by decide) (by decide)

/-- C7 counterexample: the claim says `connect()` is a no-op while the
connection is Connecting or Connected.  In `PipecatWebSocketClient`, calling
`connect` while the socket is CONNECTING passes the guard (which only checks
for OPEN) and creates a new transport with fresh handlers; and in
`WebSocketClient` (part_002), `connect` has no guard at all and creates a new
transport even while connected. -/
theorem connect_not_idempotent_eval :
    (pipecatConnect pipecatConnecting).2 = true ∧
    (connect connectedState true).2.1 = true := by
  exact ⟨rfl, rfl⟩

/-- C7 amended: the Pipecat `connect` is a no-op exactly when a socket exists
and its readyState is OPEN — it then leaves the state untouched and creates
nothing — while the part_002 `connect` always creates a new transport,
whatever the current state. -/
theorem connect_guard_amended (stp : PipecatState) (stw : ClientState)
    (hws : stp.wsPresent = true) (hrs : stp.wsReadyState = 1) :
    pipecatConnect stp = (stp, false) ∧ (connect stw true).2.1 = true := by
  constructor
  · simp [pipecatConnect, hws, hrs]
  · rfl

/-- Witness for the amended C7 at an OPEN Pipecat socket. -/
theorem connect_guard_amended_witness :
    pipecatConnect pipecatOpenState = (pipecatOpenState, false) ∧
    (connect initialState true).2.1 = true :=
  connect_guard_amended pipecatOpenState initialState rfl rfl

/-- C8 counterexample: the claim says `disconnect()` cancels any pending
reconnect timer.  With a pending reconnect timer in the runtime,
`disconnect` issues the clean close but the timer is still pending
afterwards: `scheduleReconnect` discarded the `setTimeout` handle, so
`disconnect` has nothing to cancel it with. -/
theorem disconnect_leaves_reconnect_timer_eval :
    (disconnectW pendingWorld).1.reconnectTimerPending = true ∧
    (disconnectW pendingWorld).2.1 = some (1000, "Client disconnect") := by
  exact ⟨rfl, rfl⟩

/-- C8 amended: when a socket is present, `disconnect()` cancels the
heartbeat interval and the pong timeout and closes the socket with the clean
code 1000, but a pending reconnect timer is untracked by the client and
survives the call unchanged, free to fire afterwards. -/
theorem disconnect_cancels_heartbeat_only (w : TimerWorld)
    (h : w.client.wsPresent = true) :
    (disconnectW w).1.client.heartbeatIntervalSet = false ∧
    (disconnectW w).1.client.heartbeatTimeoutSet = false ∧
    (disconnectW w).2.1 = some (1000, "Client disconnect") ∧
    (disconnectW w).1.reconnectTimerPending = w.reconnectTimerPending := by
  simp [disconnectW, disconnect, stopHeartbeat, h]

/-- Witness for the amended C8 at a connected client with a pending timer. -/
theorem disconnect_cancels_heartbeat_only_witness :
    (disconnectW pendingWorld).1.client.heartbeatIntervalSet = false ∧
    (disconnectW pendingWorld).1.client.heartbeatTimeoutSet = false ∧
    (disconnectW pendingWorld).2.1 = some (1000, "Client disconnect") ∧
    (disconnectW pendingWorld).1.reconnectTimerPending
      = pendingWorld.reconnectTimerPending :=
  disconnect_cancels_heartbeat_only pendingWorld rfl

/-- C9 counterexample: the claim says an audio buffer supplied while
disconnected is queued, not dropped.  Evaluating `sendAudioData` on the
disconnected constructor state refutes this: the call returns `false` and the
state — in particular the empty message queue — is unchanged, so the audio
was rejected, not enqueued. -/
theorem sendAudioData_drops_eval :
    sendAudioData initialState true true "QUJD" 7 = (false, initialState, []) ∧
    initialState.messageQueue = [] := by
  exact ⟨rfl, rfl⟩

/-- C9 amended: while not connected, `sendTextMessage`, `startListening` and
`stopListening` are thin wrappers over `sendMessage` that append their
envelope to the tail of the queue and return `false`; `sendAudioData` alone
refuses early, returning `false` and dropping the buffer without touching the
queue. -/
theorem thin_calls_queue_except_audio (st : ClientState) (wsOpen sendOk : Bool)
    (text b64 : String) (now : Nat) (h : st.isConnected = false) :
    sendTextMessage st wsOpen sendOk text now
      = (false, { st with messageQueue := st.messageQueue
          ++ [{ type := "text_input", data := MsgData.textPayload text now }] },
          []) ∧
    startListening st wsOpen sendOk now
      = (false, { st with messageQueue := st.messageQueue
          ++ [{ type := "start_listening", data := MsgData.stampPayload now }] },
          []) ∧
    stopListening st wsOpen sendOk now
      = (false, { st with messageQueue := st.messageQueue
          ++ [{ type := "stop_listening", data := MsgData.stampPayload now }] },
          []) ∧
    sendAudioData st wsOpen sendOk b64 now = (false, st, []) := by
  refine ⟨?_, ?_, ?_, ?_⟩ <;>
    simp [sendTextMessage, startListening, stopListening, sendAudioData,
      sendMessage, h]

/-- Witness for the amended C9 on the disconnected constructor state. -/
theorem thin_calls_queue_except_audio_witness :
    sendTextMessage initialState true true "hello" 1
      = (false, { initialState with messageQueue := initialState.messageQueue
          ++ [{ type := "text_input", data := MsgData.textPayload "hello" 1 }] },
          []) ∧
    startListening initialState true true 1
      = (false, { initialState with messageQueue := initialState.messageQueue
          ++ [{ type := "start_listening", data := MsgData.stampPayload 1 }] },
          []) ∧
    stopListening initialState true true 1
      = (false, { initialState with messageQueue := initialState.messageQueue
          ++ [{ type := "stop_listening", data := MsgData.stampPayload 1 }] },
          []) ∧
    sendAudioData initialState true true "QUJD" 1 = (false, initialState, []) :=
  thin_calls_queue_except_audio initialState true true "hello" "QUJD" 1 rfl

/-- C10: the claim says `flushMessageQueue` terminates for every finite
initial queue and every connection condition, including the connection
dropping mid-flush.  This is refuted at a concrete input: with one queued
envelope and a transport condition that reports not-OPEN at every iteration,
each iteration shifts the head off the queue and `sendMessage` pushes it back
onto the tail, so the queue never empties and no number of iterations
finishes the while loop. -/
theorem flush_no_termination_eval :
    ¬ flushTerminates (fun _ => false) (fun _ => true) stuckQueueState := by
  rintro ⟨fuel, h⟩
  rw [flushFuel_stuck (fun _ => true) fuel 0 stuckQueueState (by decide)] at h
  simp at h

end VoiceWS
